import Mathlib

/-!
Shallow embedding of `src/S3File.cc` (xrootd-s3-http): the S3 file-handle
state machine (Open / Write / SendPart / Close / Fstat).

C++ strings are modelled as `List Char` (one entry per byte).  The HTTP
collaborators (`AmazonS3Head`, `AmazonS3CreateMultipartUpload`,
`AmazonS3SendMultipartPart`, `AmazonS3CompleteMultipartUpload`) live outside
this translation unit; their observable behaviour (success / failure, response
code, response body) is passed in as explicit oracle arguments, and the
requests the handle issues are recorded in an emitted-request trace.
Requests are addressed to the handle's `(m_ai, m_object)` pair; those are
fixed after `Open` and never computed by the logic under verification, so the
trace records only the arguments the logic itself computes.

C++ exceptions (`std::stol`, `std::string::substr`) are modelled with
`Except String`: a `.error` value means an exception propagates out of the
member function (there is no try/catch anywhere in `S3File.cc`).
-/

/-- errno value `ENOENT` (2). -/
def ENOENT : Int := 2

/-- errno value `EIO_errno` (5). -/
def EIO_errno : Int := 5

/-- errno value `EPERM` (1). -/
def EPERM : Int := 1

/-- errno value `EINVAL` (22). -/
def EINVAL : Int := 22

/-- Number of values of `size_t` (64-bit). -/
def UINT64_CARD : Nat := 18446744073709551616

/-- The value `std::string::npos` = `SIZE_MAX`. -/
def npos : Nat := UINT64_CARD - 1

/-- Addition of `size_t` values (wraps modulo `2^64`). -/
def add64 (a b : Nat) : Nat := (a + b) % UINT64_CARD

/-- Subtraction of `size_t` values (wraps modulo `2^64`). -/
def sub64 (a b : Nat) : Nat := (a % UINT64_CARD + (UINT64_CARD - b % UINT64_CARD)) % UINT64_CARD

/-- The C++ `std::string::find(pat, start)`: smallest index `i ≥ start` at which `pat`
occurs in `s`, and `npos` when there is no occurrence. -/
def cppFind (s pat : List Char) (start : Nat) : Nat :=
  match (List.range (s.length + 1)).filter
      (fun i => decide (start ≤ i) && pat.isPrefixOf (s.drop i)) with
  | [] => npos
  | i :: _ => i

/-- The C++ `std::string::substr(pos, count)`: throws `std::out_of_range` when
`pos > size()`, otherwise yields at most `count` characters starting at
`pos`. -/
def cppSubstr (s : List Char) (pos count : Nat) : Except String (List Char) :=
  if pos > s.length then .error "out_of_range"
  else .ok ((s.drop pos).take count)

/-- The whitespace set of `std::isspace` (C locale). -/
def isSpaceChar (c : Char) : Bool :=
  c = ' ' || c = '\t' || c = '\n' || c = '\x0b' || c = '\x0c' || c = '\r'

/-- The C++ `std::stol(value)` in base 10: skips leading whitespace, accepts an
optional sign, then requires at least one decimal digit (otherwise it throws
`std::invalid_argument`); a value outside `long` range throws
`std::out_of_range`.  The parsed prefix is used; trailing garbage is
ignored by `std::stol` itself. -/
def cppStol (s : List Char) : Except String Int :=
  match (s.dropWhile isSpaceChar) with
  | '-' :: rest =>
    if (rest.takeWhile Char.isDigit) = [] then .error "invalid_argument"
    else
      stolRange (-(Int.ofNat ((rest.takeWhile Char.isDigit).foldl
        (fun a c => a * 10 + (c.toNat - 48)) 0)))
  | '+' :: rest =>
    if (rest.takeWhile Char.isDigit) = [] then .error "invalid_argument"
    else
      stolRange (Int.ofNat ((rest.takeWhile Char.isDigit).foldl
        (fun a c => a * 10 + (c.toNat - 48)) 0))
  | other =>
    if (other.takeWhile Char.isDigit) = [] then .error "invalid_argument"
    else
      stolRange (Int.ofNat ((other.takeWhile Char.isDigit).foldl
        (fun a c => a * 10 + (c.toNat - 48)) 0))
where
  /-- `long` range check of `std::stol`. -/
  stolRange (v : Int) : Except String Int :=
    if v < -(2 ^ 63) || v > 2 ^ 63 - 1 then .error "out_of_range" else .ok v

/-- Modelled from the spec: `substring(str, left, right = npos)` from the
repository's string utilities (`stl_string_utils`, not under `src/`) yields
the segment of `str` from index `left` (inclusive) to `right` (exclusive),
clamped to the bounds of `str` (spec 4.3: "scan line-by-line on \r\n
boundaries", lines being the segments between separators). -/
def substring (s : List Char) (left right : Nat) : List Char :=
  (s.take right).drop left

/-- Modelled from the spec: `trim(value)` from the repository's string
utilities (not under `src/`) removes leading and trailing whitespace
(spec 4.3: "trim surrounding whitespace from the value"). -/
def trim (s : List Char) : List Char :=
  ((s.dropWhile isSpaceChar).reverse.dropWhile isSpaceChar).reverse

/-- Modelled from the spec: `toLower(attr)` from the repository's string
utilities (not under `src/`) case-folds the attribute name (spec 4.3:
"case-fold the attribute name"). -/
def toLower (s : List Char) : List Char := s.map Char.toLower

/-- The part of `S3AccessInfo` the file handle consults
(`getS3BucketName()`). -/
structure S3AccessInfo where
  s3BucketName : List Char
deriving DecidableEq

/-- The mutable state of one `S3File` handle.  `m_log` and `m_oss` (logging
and the filesystem back-pointer) carry no state the claims concern and are
omitted. -/
structure S3File where
  m_ai : S3AccessInfo
  m_object : List Char
  content_length : Int
  last_modified : Int
  write_buffer : List Char
  partNumber : Nat
  eTags : List (List Char)
  uploadId : List Char
deriving DecidableEq

/-- The constructor `S3File::S3File`: `content_length(0), last_modified(0),
write_buffer(""), partNumber(1)`; `uploadId`, `eTags`, `m_object` and the
access info are default-constructed empty. -/
def initS3File : S3File :=
  { m_ai := { s3BucketName := [] }, m_object := [], content_length := 0,
    last_modified := 0, write_buffer := [], partNumber := 1, eTags := [],
    uploadId := [] }

/-- An HTTP request issued by the handle, as recorded in the trace. -/
inductive Request where
  | createMultipartUpload : Request
  | sendMultipartPart (payload : List Char) (partNumberStr : List Char)
      (uploadId : List Char) : Request
  | completeMultipartUpload (eTags : List (List Char)) (partNumber : Nat)
      (uploadId : List Char) : Request
  | head : Request
deriving DecidableEq

/-- Returns `true` exactly on `createMultipartUpload` requests. -/
def isCreateReq : Request → Bool
  | Request.createMultipartUpload => true
  | _ => false

/-- Returns `true` exactly on `sendMultipartPart` requests (part flush attempts). -/
def isPartReq : Request → Bool
  | Request.sendMultipartPart _ _ _ => true
  | _ => false

/-- Returns `true` exactly on `completeMultipartUpload` requests. -/
def isCompleteReq : Request → Bool
  | Request.completeMultipartUpload _ _ _ => true
  | _ => false

/-- The part-upload request `SendPart` issues:
`upload_part_request.SendRequest(write_buffer, std::to_string(partNumber),
uploadId)`. -/
def partRequest (st : S3File) : Request :=
  Request.sendMultipartPart st.write_buffer (toString st.partNumber).toList
    st.uploadId

/-- The completion request `Close` issues:
`complete_upload_request.SendRequest(eTags, partNumber, uploadId)`. -/
def completeRequest (st : S3File) : Request :=
  Request.completeMultipartUpload st.eTags st.partNumber st.uploadId

/-- The ETag extraction of `S3File::SendPart`:
`startPos = resultString.find("ETag:"); endPos = resultString.find("\"",
startPos + 7); resultString.substr(startPos + 7, endPos - startPos - 7)`,
with `size_t` arithmetic and a possible `std::out_of_range` throw from
`substr`. -/
def extractETag (resultString : List Char) : Except String (List Char) :=
  cppSubstr resultString
    (add64 (cppFind resultString ('E' :: 'T' :: 'a' :: 'g' :: ':' :: []) 0) 7)
    (sub64 (sub64 (cppFind resultString ['"']
        (add64 (cppFind resultString ('E' :: 'T' :: 'a' :: 'g' :: ':' :: []) 0) 7))
      (cppFind resultString ('E' :: 'T' :: 'a' :: 'g' :: ':' :: []) 0)) 7)

/-- The member `S3File::SendPart()`.  The oracle `resp` is the outcome of
`upload_part_request.SendRequest(...)`: `none` when it returns `false`,
`some resultString` when it succeeds with that response body.  On success the
function extracts the ETag, pushes it, increments `partNumber`, clears the
buffer and returns the pre-clear buffer length (`int length =
write_buffer.length()` is read before the request). -/
def SendPart (st : S3File) (resp : Option (List Char)) :
    Except String (Int × S3File × List Request) :=
  match resp with
  | none => .ok (-ENOENT, st, [partRequest st])
  | some resultString =>
    match extractETag resultString with
    | .error e => .error e
    | .ok tag =>
      .ok (Int.ofNat st.write_buffer.length,
           { st with eTags := st.eTags ++ [tag],
                     partNumber := st.partNumber + 1,
                     write_buffer := [] },
           [partRequest st])

/-- The body of `S3File::Write` after the multipart upload has been ensured:
`std::string payload((char *)buffer, size)` reads exactly `size` bytes at the
pointer — `buffer` here IS those bytes, so `payload = buffer` and the
`payload_size != size` guard is the (dead) comparison of `buffer.length`
with itself; then the payload is appended and a part is flushed when the
buffer length exceeds 100000000. `reqs` is the trace accumulated so far by
the caller. -/
def writeBody (st : S3File) (buffer : List Char) (reqs : List Request)
    (partResp : Option (List Char)) :
    Except String (Int × S3File × List Request) :=
  if buffer.length ≠ buffer.length then .ok (-ENOENT, st, reqs)
  else if (st.write_buffer ++ buffer).length > 100000000 then
    match SendPart { st with write_buffer := st.write_buffer ++ buffer }
        partResp with
    | .error e => .error e
    | .ok (r, st3, reqs2) =>
      if r = -ENOENT then .ok (-ENOENT, st3, reqs ++ reqs2)
      else .ok (Int.ofNat buffer.length, st3, reqs ++ reqs2)
  else
    .ok (Int.ofNat buffer.length,
         { st with write_buffer := st.write_buffer ++ buffer }, reqs)

/-- The member `S3File::Write(buffer, offset, size)`.  `buffer` is the `size` bytes at
the pointer.  Oracles: `initResp` is the outcome of
`AmazonS3CreateMultipartUpload` (`none` = `SendRequest()` failed,
`some uid` = success with `Results` yielding `uid`); `partResp` is the
outcome of the part upload should a flush trigger.  Note that the multipart
upload is initiated at the start of every `Write` that finds `uploadId`
empty, before any threshold check. -/
def S3File.Write (st : S3File) (buffer : List Char) (offset : Int)
    (initResp : Option (List Char)) (partResp : Option (List Char)) :
    Except String (Int × S3File × List Request) :=
  if st.uploadId = [] then
    match initResp with
    | none => .ok (-ENOENT, st, [Request.createMultipartUpload])
    | some uid =>
      writeBody { st with uploadId := uid } buffer
        [Request.createMultipartUpload] partResp
  else
    writeBody st buffer [] partResp

/-- The tail of `S3File::Close`: `if (partNumber > 1)` send the completion
request (oracle `completeOk`), else fall through to `return 0`. -/
def closeFinalize (st : S3File) (reqs : List Request) (completeOk : Bool) :
    Except String (Int × S3File × List Request) :=
  if st.partNumber > 1 then
    if completeOk then .ok (0, st, reqs ++ [completeRequest st])
    else .ok (-ENOENT, st, reqs ++ [completeRequest st])
  else .ok (0, st, reqs)

/-- The member `S3File::Close(retsz)` (`retsz` is never written).  Oracles: `partResp`
for the drain flush (used only when the buffer is non-empty), `completeOk`
for `AmazonS3CompleteMultipartUpload::SendRequest`. -/
def S3File.Close (st : S3File) (partResp : Option (List Char))
    (completeOk : Bool) : Except String (Int × S3File × List Request) :=
  if st.write_buffer.length > 0 then
    match SendPart st partResp with
    | .error e => .error e
    | .ok (r, st1, reqs1) =>
      if r = -ENOENT then .ok (-ENOENT, st1, reqs1)
      else closeFinalize st1 reqs1 completeOk
  else closeFinalize st [] completeOk

/-- Linux `O_CREAT` (octal 0100). -/
def O_CREAT : Nat := 64

/-- Linux `O_WRONLY`. -/
def O_WRONLY : Nat := 1

/-- Linux `O_RDWR`. -/
def O_RDWR : Nat := 2

/-- Linux `O_APPEND` (octal 02000). -/
def O_APPEND : Nat := 1024

/-- Linux `O_TRUNC` (octal 01000). -/
def O_TRUNC : Nat := 512

/-- Linux `O_NONBLOCK` (octal 04000); a status flag, neither a creation nor
a write flag. -/
def O_NONBLOCK : Nat := 2048

/-- The outcomes of the external collaborators `S3File::Open` consults:
`m_oss->parsePath` (return value plus the out-parameters `exposedPath`,
`object`), `m_oss->getS3AccessInfo` (`none` models a null pointer) and the
metadata probe `AmazonS3Head::SendRequest`. -/
structure OpenOracle where
  parseRv : Int
  exposedPath : List Char
  object : List Char
  accessInfo : Option S3AccessInfo
  headOk : Bool
deriving DecidableEq

/-- The member `S3File::Open(path, Oflag, Mode, env)`.  The `O_CREAT` / `O_APPEND` /
debug branches only log and are omitted.  The probe is issued exactly when
`!Oflag`, i.e. when the flag word is zero. -/
def S3File.Open (st : S3File) (path : List Char) (Oflag : Nat) (mode : Nat)
    (o : OpenOracle) : Int × S3File × List Request :=
  if o.parseRv ≠ 0 then (o.parseRv, st, [])
  else
    match o.accessInfo with
    | none => (-ENOENT, st, [])
    | some ai =>
      if ai.s3BucketName = [] then (-EINVAL, st, [])
      else
        if Oflag = 0 then
          if o.headOk then (0, { st with m_ai := ai, m_object := o.object },
            [Request.head])
          else (-ENOENT, { st with m_ai := ai, m_object := o.object },
            [Request.head])
        else (0, { st with m_ai := ai, m_object := o.object }, [])

/-- The `switch (httpCode)` of `S3File::Fstat`'s failure branch:
404 → `-ENOENT`, 500 → `-EIO_errno`, 403 → `-EPERM`, default → `-EIO_errno`. -/
def fstatStatusSwitch (httpCode : Nat) : Int :=
  if httpCode = 404 then -ENOENT
  else if httpCode = 500 then -EIO_errno
  else if httpCode = 403 then -EPERM
  else -EIO_errno

/-- The status table of spec section 4.4 (`StatusMapper`), written from the
spec's words for comparison with the code: 404 → NotFound (`-ENOENT`),
500 → ServerError (`-EIO_errno`), 403 → PermissionDenied (`-EPERM`), any other
non-zero status → ServerError (`-EIO_errno`), no status available (0) →
TransportError (`-EIO_errno`). -/
def specStatusMapper (httpCode : Nat) : Int :=
  if httpCode = 404 then -ENOENT
  else if httpCode = 500 then -EIO_errno
  else if httpCode = 403 then -EPERM
  else if httpCode ≠ 0 then -EIO_errno
  else -EIO_errno

/-- One header line of `S3File::Fstat`'s parse loop: split at the first
colon, trim the value, case-fold the attribute; `content-length` goes
through `std::stol` (which may throw), `last-modified` through
`strptime`/`timegm`.  `parseDate` stands for that composite (not shallowly
embeddable libc code): `some epoch` models a parse that consumed the whole
value with `timegm` not returning `-1`, per spec 4.3. -/
def processLine (parseDate : List Char → Option Int) (st : S3File)
    (line : List Char) : Except String S3File :=
  if cppFind line [':'] 0 ≠ npos ∧ cppFind line [':'] 0 ≠ line.length then
    if toLower (substring line 0 (cppFind line [':'] 0)) =
        ('c' :: "ontent-length".toList) then
      match cppStol (trim (substring line (add64 (cppFind line [':'] 0) 1)
          npos)) with
      | .error e => .error e
      | .ok v => .ok { st with content_length := v }
    else if toLower (substring line 0 (cppFind line [':'] 0)) =
        ('l' :: "ast-modified".toList) then
      match parseDate (trim (substring line (add64 (cppFind line [':'] 0) 1)
          npos)) with
      | some epoch => .ok { st with last_modified := epoch }
      | none => .ok st
    else .ok st
  else .ok st

/-- The `"\r\n"` separator. -/
def crlfChars : List Char := ['\r', '\n']

/-- The header scan loop of `S3File::Fstat`:
`while (current_newline != npos && current_newline != last_character - 1)`
with `next_newline = headers.find("\r\n", current_newline + 2)` and
`line = substring(headers, current_newline + 2, next_newline)`.  Each
iteration either moves `current_newline` forward by at least two or sets it
to `npos`, so `headers.length + 2` units of fuel are never exhausted; the
fuel-out branch is unreachable for the wrapper below. -/
def parseHeaderBlockAux (parseDate : List Char → Option Int)
    (headers : List Char) : Nat → Nat → S3File → Except String S3File
  | 0, _, st => .ok st
  | fuel + 1, current_newline, st =>
    if current_newline ≠ npos ∧
        current_newline ≠ sub64 headers.length 1 then
      match processLine parseDate st
          (substring headers (add64 current_newline 2)
            (cppFind headers crlfChars (add64 current_newline 2))) with
      | .error e => .error e
      | .ok st' =>
        parseHeaderBlockAux parseDate headers fuel
          (cppFind headers crlfChars (add64 current_newline 2)) st'
    else .ok st

/-- The header scan of `S3File::Fstat`, from `current_newline = 0`. -/
def parseHeaderBlock (parseDate : List Char → Option Int) (st : S3File)
    (headers : List Char) : Except String S3File :=
  parseHeaderBlockAux parseDate headers (headers.length + 2) 0 st

/-- The outcome of `AmazonS3Head::SendRequest` in `Fstat`: success with the
raw header block, or failure with `getResponseCode()` (0 when no HTTP
status is available). -/
inductive HeadOutcome where
  | ok (headers : List Char) : HeadOutcome
  | fail (httpCode : Nat) : HeadOutcome
deriving DecidableEq

/-- The `struct stat` fields `S3File::Fstat` fills on success:
`st_mode = 0600 | S_IFREG`, `st_nlink = 1`, `st_uid = st_gid = 1`,
`st_size = content_length`, `st_mtime = last_modified`, the rest zero. -/
structure StatInfo where
  st_mode : Nat
  st_nlink : Nat
  st_uid : Nat
  st_gid : Nat
  st_size : Int
  st_mtime : Int
deriving DecidableEq

/-- The stat buffer `Fstat` writes from the parsed state
(`S_IFREG` = octal 0100000 = 32768, `0600` = 384). -/
def fstatFill (st : S3File) : StatInfo :=
  { st_mode := 32768 + 384, st_nlink := 1, st_uid := 1, st_gid := 1,
    st_size := st.content_length, st_mtime := st.last_modified }

/-- The member `S3File::Fstat(buff)`.  On probe failure with an HTTP status the
detailed switch applies, without one (`httpCode == 0`) the `else` branch
returns `-EIO_errno`; on probe success the header block is parsed (which may
throw out of the function via `std::stol`) and the function returns 0 after
filling `buff` with `fstatFill` of the updated state. -/
def S3File.Fstat (st : S3File) (outcome : HeadOutcome)
    (parseDate : List Char → Option Int) :
    Except String (Int × S3File × List Request) :=
  match outcome with
  | .fail httpCode =>
    if httpCode ≠ 0 then .ok (fstatStatusSwitch httpCode, st, [Request.head])
    else .ok (-EIO_errno, st, [Request.head])
  | .ok headers =>
    match parseHeaderBlock parseDate st headers with
    | .error e => .error e
    | .ok st' => .ok (0, st', [Request.head])

/-- One externally driven operation on a handle, with the oracle responses
it needs. -/
inductive WStep where
  | write (buffer : List Char) (offset : Int) (initResp : Option (List Char))
      (partResp : Option (List Char)) : WStep
  | sendPart (resp : Option (List Char)) : WStep
  | close (partResp : Option (List Char)) (completeOk : Bool) : WStep
deriving DecidableEq

/-- Run one step, keeping only successful outcomes (`Write` returns the
accepted size `≥ 0`, `SendPart` returns the part length `≠ -ENOENT`,
`Close` returns 0). -/
def stepRunT (st : S3File) : WStep → Option (S3File × List Request)
  | WStep.write buf off ir pr =>
    match S3File.Write st buf off ir pr with
    | .error _ => none
    | .ok (r, st', reqs) => if r < 0 then none else some (st', reqs)
  | WStep.sendPart resp =>
    match SendPart st resp with
    | .error _ => none
    | .ok (r, st', reqs) => if r = -ENOENT then none else some (st', reqs)
  | WStep.close pr c =>
    match S3File.Close st pr c with
    | .error _ => none
    | .ok (r, st', reqs) => if r = 0 then some (st', reqs) else none

/-- Run a sequence of successful operations, accumulating the requests
issued. -/
def runTrace : S3File → List WStep → Option (S3File × List Request)
  | st, [] => some (st, [])
  | st, s :: rest =>
    match stepRunT st s with
    | none => none
    | some (st1, reqs1) =>
      match runTrace st1 rest with
      | none => none
      | some (st2, reqs2) => some (st2, reqs1 ++ reqs2)

/-- Returns `true` when a step is a `write` or `sendPart` (no `close`). -/
def isWriteOrSend : WStep → Bool
  | WStep.close _ _ => false
  | _ => true

/-- Returns `true` when a `write` step's multipart-init oracle, if successful,
yields a non-empty upload id (real stores return non-empty ids). -/
def initRespOk : WStep → Bool
  | WStep.write _ _ (some uid) _ => uid ≠ []
  | _ => true

/-- A well-formed part-upload response body: `find("ETag:") = 0`, the quote
search from index 7 hits the closing quote, so the extracted tag is `abc`. -/
def etagResp : List Char := "ETag: \"abc\"".toList

/-- The ETag extracted from `etagResp`. -/
def abcTag : List Char := ['a', 'b', 'c']

/-- The handle state after one successful 1-byte `Write` from the initial
state (multipart upload initiated, nothing flushed). -/
def smallWriteSt : S3File :=
  { initS3File with uploadId := ['U'], write_buffer := ['a'] }

/-- The handle state after that write has been flushed as part 1. -/
def onePartSt : S3File :=
  { initS3File with uploadId := ['U'], partNumber := 2, eTags := [abcTag] }

/-- Flushing a buffer as a part: clear it, bump `partNumber`, push `tag`. -/
def flushedState (st : S3File) (tag : List Char) : S3File :=
  { st with write_buffer := [], partNumber := st.partNumber + 1,
            eTags := st.eTags ++ [tag] }

/-- The state `Open` leaves behind after successful path resolution. -/
def openedState (st : S3File) (ai : S3AccessInfo) (object : List Char) :
    S3File :=
  { st with m_ai := ai, m_object := object }

/-- A header block whose `content-length` value is not a valid integer. -/
def c2_badHeaders : List Char :=
  "HTTP/1.1 200 OK\r\ncontent-length: abc\r\n".toList

/-- Witness run for the part-counting invariant: one buffered write, then an
explicit part flush. -/
def c3_ops : List WStep :=
  [WStep.write ['a'] 0 (some ['U']) none, WStep.sendPart (some etagResp)]

/-- The requests issued along `c3_ops`. -/
def c3_reqs : List Request :=
  [Request.createMultipartUpload,
   Request.sendMultipartPart ['a'] ['1'] ['U']]

/-- A single below-threshold write from the initial state. -/
def c4_ops : List WStep := [WStep.write ['a'] 0 (some ['U']) none]

/-- Write one byte, `Close` (drain + finalize), `Close` again. -/
def c6_ops : List WStep :=
  [WStep.write ['a'] 0 (some ['U']) none,
   WStep.close (some etagResp) true,
   WStep.close none true]

/-- The full request trace of `c6_ops`: the second `Close` repeats the
completion request. -/
def c6_trace : List Request :=
  [Request.createMultipartUpload,
   Request.sendMultipartPart ['a'] ['1'] ['U'],
   Request.completeMultipartUpload [abcTag] 2 ['U'],
   Request.completeMultipartUpload [abcTag] 2 ['U']]

/-- A 60,000,000-byte write payload. -/
def sixtyMB : List Char := List.replicate 60000000 'a'

/-- Three sequential 60,000,000-byte writes followed by `Close` (the spec's
finalization scenario). -/
def c7_ops : List WStep :=
  [WStep.write sixtyMB 0 (some ['U']) none,
   WStep.write sixtyMB 0 none (some etagResp),
   WStep.write sixtyMB 0 none none,
   WStep.close (some etagResp) true]

/-- Scenario state after the first 60 MB write. -/
def c7_st1 : S3File :=
  { initS3File with uploadId := ['U'], write_buffer := sixtyMB }

/-- Scenario state after the second write (120 MB crossed the threshold and
part 1 was flushed). -/
def c7_st2 : S3File :=
  { initS3File with uploadId := ['U'], partNumber := 2, eTags := [abcTag] }

/-- Scenario state after the third write (60 MB buffered again). -/
def c7_st3 : S3File := { c7_st2 with write_buffer := sixtyMB }

/-- Scenario state after `Close` drained part 2 and finalized. -/
def c7_st4 : S3File :=
  { c7_st2 with partNumber := 3, eTags := [abcTag, abcTag] }

/-- A handle holding exactly 99,999,999 buffered bytes. -/
def c8_st99 : S3File :=
  { initS3File with uploadId := ['U'],
                    write_buffer := List.replicate 99999999 'a' }

/-- A handle holding exactly 100,000,000 buffered bytes. -/
def c8_st100 : S3File :=
  { initS3File with uploadId := ['U'],
                    write_buffer := List.replicate 100000000 'a' }

/-- The creation/write open flags of the claim: `O_CREAT`, `O_WRONLY`,
`O_RDWR`, `O_APPEND`, `O_TRUNC`. -/
def createWriteMask : Nat := O_CREAT ||| O_WRONLY ||| O_RDWR ||| O_APPEND ||| O_TRUNC

/-- An `Open` oracle: path resolution succeeds, the bucket is non-empty, the
metadata probe would fail. -/
def c9o : OpenOracle :=
  { parseRv := 0, exposedPath := [], object := ['o'],
    accessInfo := some { s3BucketName := ['b'] }, headOk := false }

/-- The access info `c9o` resolves to. -/
def c9ai : S3AccessInfo := { s3BucketName := ['b'] }

/-- The part-upload request issued when the second 60 MB write flushes. -/
def c7_part1Req : Request :=
  partRequest { c7_st1 with write_buffer := c7_st1.write_buffer ++ sixtyMB }

/-- The part-upload request issued by the draining `Close`. -/
def c7_part2Req : Request := partRequest c7_st3

/-- An `Int.ofNat` value is never the error code `-ENOENT`. -/
lemma intOfNat_ne_negENOENT (n : Nat) : Int.ofNat n ≠ -ENOENT := by
  simp only [Int.ofNat_eq_natCast]; unfold ENOENT; omega

/-- An `Int.ofNat` value is never negative. -/
lemma intOfNat_not_lt_zero (n : Nat) : ¬ Int.ofNat n < 0 := by
  simp only [Int.ofNat_eq_natCast]; omega

/-- C1: every failed metadata probe in `Fstat` maps its outcome exactly as
the spec's `StatusMapper` table does: 404 ↦ `-ENOENT`, 500 ↦ `-EIO`,
403 ↦ `-EPERM`, any other non-zero status ↦ `-EIO`, and a zero/absent
status (transport-level failure) ↦ `-EIO`. -/
theorem fstat_probe_failure_status_mapping (st : S3File)
    (parseDate : List Char → Option Int) (code : Nat) :
    S3File.Fstat st (HeadOutcome.fail code) parseDate =
      Except.ok (specStatusMapper code, st, [Request.head]) := by
  show (if code ≠ 0 then Except.ok (fstatStatusSwitch code, st, [Request.head])
        else Except.ok (-EIO_errno, st, [Request.head])) =
      Except.ok (specStatusMapper code, st, [Request.head])
  unfold fstatStatusSwitch specStatusMapper
  split_ifs <;> first | rfl | omega

/-- C2 (code bug): on a header block whose `content-length` value is not a
valid integer, `Fstat`'s header parsing does NOT complete silently: the
unguarded `std::stol` throws `std::invalid_argument`, which propagates out
of `Fstat`. -/
theorem fstat_malformed_content_length_throws :
    S3File.Fstat initS3File (HeadOutcome.ok c2_badHeaders) (fun _ => none) =
      Except.error "invalid_argument" := by rfl

/-- C5: if the part-upload request fails, `SendPart` returns `-ENOENT` and
leaves the whole handle state — in particular `write_buffer`, `partNumber`
and `eTags` — exactly as it was, so the same flush can be retried. -/
theorem sendPart_failure_preserves_state (st : S3File) :
    SendPart st none = Except.ok (-ENOENT, st, [partRequest st]) := rfl

/-- C10: `Write` never reads its `offset` argument: any two offsets yield
the identical result (return value, state change and issued requests), so
out-of-order offsets are silently treated as sequential appends. -/
theorem write_ignores_offset (st : S3File) (buf : List Char)
    (off1 off2 : Int) (ir pr : Option (List Char)) :
    S3File.Write st buf off1 ir pr = S3File.Write st buf off2 ir pr := rfl

/-- Inversion for `SendPart`: a request failure returns `-ENOENT` with the
state untouched; a success returns the old buffer length, bumps
`partNumber`, appends one ETag and clears the buffer. -/
lemma SendPart_cases (st : S3File) (resp : Option (List Char)) (r : Int)
    (st' : S3File) (reqs : List Request)
    (h : SendPart st resp = Except.ok (r, st', reqs)) :
    (r = -ENOENT ∧ st' = st ∧ reqs = [partRequest st]) ∨
    (r = Int.ofNat st.write_buffer.length ∧
     st'.partNumber = st.partNumber + 1 ∧
     st'.eTags.length = st.eTags.length + 1 ∧
     st'.uploadId = st.uploadId ∧ st'.write_buffer = [] ∧
     reqs = [partRequest st]) := by
  cases resp with
  | none =>
    simp only [SendPart, Except.ok.injEq, Prod.mk.injEq] at h
    exact Or.inl ⟨h.1.symm, h.2.1.symm, h.2.2.symm⟩
  | some s =>
    simp only [SendPart] at h
    cases hx : extractETag s with
    | error e => rw [hx] at h; simp at h
    | ok tag =>
      rw [hx] at h
      simp only [Except.ok.injEq, Prod.mk.injEq] at h
      obtain ⟨h1, h2, h3⟩ := h
      refine Or.inr ⟨h1.symm, ?_, ?_, ?_, ?_, h3.symm⟩ <;>
        rw [← h2] <;> simp

/-- Inversion for `writeBody`: either the counters are untouched (no flush,
or a flush that failed) or exactly one part was recorded; either way the
`uploadId` is untouched and no `createMultipartUpload` request is added to
the accumulated trace. -/
lemma writeBody_cases (st : S3File) (buffer : List Char) (reqs : List Request)
    (pr : Option (List Char)) (r : Int) (st' : S3File) (reqs' : List Request)
    (h : writeBody st buffer reqs pr = Except.ok (r, st', reqs')) :
    ((st'.partNumber = st.partNumber ∧ st'.eTags = st.eTags ∧
      st'.uploadId = st.uploadId) ∨
     (st'.partNumber = st.partNumber + 1 ∧
      st'.eTags.length = st.eTags.length + 1 ∧
      st'.uploadId = st.uploadId)) ∧
    reqs'.any isCreateReq = reqs.any isCreateReq := by
  rw [writeBody, if_neg (by simp)] at h
  by_cases hth : (st.write_buffer ++ buffer).length > 100000000
  · rw [if_pos hth] at h
    cases hsp : SendPart { st with write_buffer := st.write_buffer ++ buffer } pr with
    | error e => rw [hsp] at h; simp at h
    | ok t =>
      obtain ⟨r2, st3, reqs2⟩ := t
      simp only [hsp] at h
      have hc := SendPart_cases _ _ _ _ _ hsp
      by_cases hr2 : r2 = -ENOENT
      · rw [if_pos hr2] at h
        simp only [Except.ok.injEq, Prod.mk.injEq] at h
        obtain ⟨-, h2, h3⟩ := h
        rcases hc with ⟨-, hst, hreqs⟩ | ⟨hr, -, -, -, -, -⟩
        · subst hst; rw [← h2, ← h3]
          refine ⟨Or.inl ⟨rfl, rfl, rfl⟩, ?_⟩
          rw [hreqs]
          simp [isCreateReq, partRequest]
        · exact absurd (hr2 ▸ hr.symm) (intOfNat_ne_negENOENT _)
      · rw [if_neg hr2] at h
        simp only [Except.ok.injEq, Prod.mk.injEq] at h
        obtain ⟨-, h2, h3⟩ := h
        rcases hc with ⟨hr, -, -⟩ | ⟨-, hpn, hlen, hup, -, hreqs⟩
        · exact absurd hr hr2
        · rw [← h2, ← h3]
          refine ⟨Or.inr ⟨?_, ?_, ?_⟩, ?_⟩
          · simpa using hpn
          · simpa using hlen
          · simpa using hup
          · rw [hreqs]; simp [isCreateReq, partRequest]
  · rw [if_neg hth] at h
    simp only [Except.ok.injEq, Prod.mk.injEq] at h
    obtain ⟨-, h2, h3⟩ := h
    rw [← h2, ← h3]
    exact ⟨Or.inl ⟨by simp, by simp, by simp⟩, rfl⟩

/-- Inversion for `Write`: the part counters either stay or advance together
by one. -/
lemma Write_counters (st : S3File) (buf : List Char) (off : Int)
    (ir pr : Option (List Char)) (r : Int) (st' : S3File)
    (reqs' : List Request)
    (h : S3File.Write st buf off ir pr = Except.ok (r, st', reqs')) :
    (st'.partNumber = st.partNumber ∧ st'.eTags = st.eTags) ∨
    (st'.partNumber = st.partNumber + 1 ∧
     st'.eTags.length = st.eTags.length + 1) := by
  rw [S3File.Write.eq_def] at h
  by_cases hu : st.uploadId = []
  · rw [if_pos hu] at h
    cases ir with
    | none =>
      simp only [Except.ok.injEq, Prod.mk.injEq] at h
      obtain ⟨-, h2, -⟩ := h
      rw [← h2]
      exact Or.inl ⟨rfl, rfl⟩
    | some uid =>
      have hcase := (writeBody_cases _ _ _ _ _ _ _ h).1
      rcases hcase with ⟨a, b, -⟩ | ⟨a, b, -⟩
      · exact Or.inl ⟨by simpa using a, by simpa using b⟩
      · exact Or.inr ⟨by simpa using a, by simpa using b⟩
  · rw [if_neg hu] at h
    have := (writeBody_cases _ _ _ _ _ _ _ h).1
    rcases this with ⟨a, b, -⟩ | ⟨a, b, -⟩
    · exact Or.inl ⟨a, b⟩
    · exact Or.inr ⟨a, b⟩

/-- Inversion for `Write` on the `uploadId`: after a successful `Write`
(return value `≥ 0`) with an init oracle that only returns non-empty ids,
the `uploadId` is non-empty iff it already was or a
`createMultipartUpload` request is in the issued trace. -/
lemma Write_uploadId (st : S3File) (buf : List Char) (off : Int)
    (ir pr : Option (List Char)) (r : Int) (st' : S3File)
    (reqs' : List Request)
    (h : S3File.Write st buf off ir pr = Except.ok (r, st', reqs'))
    (hr : 0 ≤ r) (hok : ∀ uid, ir = some uid → uid ≠ []) :
    (st'.uploadId ≠ [] ↔ (st.uploadId ≠ [] ∨ reqs'.any isCreateReq = true)) := by
  rw [S3File.Write.eq_def] at h
  by_cases hu : st.uploadId = []
  · rw [if_pos hu] at h
    cases ir with
    | none =>
      simp only [Except.ok.injEq, Prod.mk.injEq] at h
      obtain ⟨h1, -, -⟩ := h
      rw [← h1] at hr
      exact absurd hr (by unfold ENOENT; omega)
    | some uid =>
      obtain ⟨hcase, hcreate⟩ := writeBody_cases _ _ _ _ _ _ _ h
      have hup : st'.uploadId = uid := by
        rcases hcase with ⟨-, -, c⟩ | ⟨-, -, c⟩ <;> simpa using c
      have huid : uid ≠ [] := hok uid rfl
      rw [hup, hcreate]
      simp [isCreateReq, huid]
  · rw [if_neg hu] at h
    obtain ⟨hcase, -⟩ := writeBody_cases _ _ _ _ _ _ _ h
    have hup : st'.uploadId = st.uploadId := by
      rcases hcase with ⟨-, -, c⟩ | ⟨-, -, c⟩ <;> exact c
    rw [hup]
    simp [hu]

/-- Inversion for `closeFinalize`: the state is returned unchanged and at
most one completion request is appended. -/
lemma closeFinalize_cases (st : S3File) (reqs : List Request) (c : Bool)
    (r : Int) (st' : S3File) (reqs' : List Request)
    (h : closeFinalize st reqs c = Except.ok (r, st', reqs')) :
    st' = st ∧ (reqs' = reqs ∨ reqs' = reqs ++ [completeRequest st]) := by
  rw [closeFinalize] at h
  split at h
  · split at h <;>
    · simp only [Except.ok.injEq, Prod.mk.injEq] at h
      exact ⟨h.2.1.symm, Or.inr h.2.2.symm⟩
  · simp only [Except.ok.injEq, Prod.mk.injEq] at h
    exact ⟨h.2.1.symm, Or.inl h.2.2.symm⟩

/-- Inversion for `Close`: counters stay or advance together by one, the
`uploadId` is untouched, and no `createMultipartUpload` request is
issued. -/
lemma Close_cases (st : S3File) (pr : Option (List Char)) (c : Bool)
    (r : Int) (st' : S3File) (reqs' : List Request)
    (h : S3File.Close st pr c = Except.ok (r, st', reqs')) :
    ((st'.partNumber = st.partNumber ∧ st'.eTags = st.eTags) ∨
     (st'.partNumber = st.partNumber + 1 ∧
      st'.eTags.length = st.eTags.length + 1)) ∧
    st'.uploadId = st.uploadId ∧ reqs'.any isCreateReq = false := by
  rw [S3File.Close] at h
  split at h
  · cases hsp : SendPart st pr with
    | error e => rw [hsp] at h; simp at h
    | ok t =>
      obtain ⟨r2, st1, reqs1⟩ := t
      simp only [hsp] at h
      have hc := SendPart_cases _ _ _ _ _ hsp
      by_cases hr2 : r2 = -ENOENT
      · rw [if_pos hr2] at h
        simp only [Except.ok.injEq, Prod.mk.injEq] at h
        obtain ⟨-, h2, h3⟩ := h
        rcases hc with ⟨-, hst, hreqs⟩ | ⟨hr, -, -, -, -, -⟩
        · subst hst
          rw [← h2, ← h3, hreqs]
          exact ⟨Or.inl ⟨rfl, rfl⟩, rfl, by simp [isCreateReq, partRequest]⟩
        · exact absurd (hr2 ▸ hr.symm) (intOfNat_ne_negENOENT _)
      · rw [if_neg hr2] at h
        obtain ⟨hst', hreqs'⟩ := closeFinalize_cases _ _ _ _ _ _ h
        rcases hc with ⟨hr, -, -⟩ | ⟨-, hpn, hlen, hup, -, hreqs⟩
        · exact absurd hr hr2
        · subst hst'
          refine ⟨Or.inr ⟨hpn, hlen⟩, hup, ?_⟩
          rcases hreqs' with h' | h' <;>
            rw [h', hreqs] <;>
            simp [isCreateReq, partRequest, completeRequest]
  · obtain ⟨hst', hreqs'⟩ := closeFinalize_cases _ _ _ _ _ _ h
    subst hst'
    refine ⟨Or.inl ⟨rfl, rfl⟩, rfl, ?_⟩
    rcases hreqs' with h' | h' <;> rw [h'] <;>
      simp [isCreateReq, completeRequest]

/-- Inversion for one successful step: part counters stay or advance
together, and (for well-behaved init oracles) the `uploadId` is non-empty
afterwards iff it was before or the step issued a multipart-init
request. -/
lemma stepRunT_cases (st : S3File) (s : WStep) (st1 : S3File)
    (reqs1 : List Request) (h : stepRunT st s = some (st1, reqs1)) :
    ((st1.partNumber = st.partNumber ∧ st1.eTags = st.eTags) ∨
     (st1.partNumber = st.partNumber + 1 ∧
      st1.eTags.length = st.eTags.length + 1)) ∧
    (initRespOk s = true →
      (st1.uploadId ≠ [] ↔ (st.uploadId ≠ [] ∨ reqs1.any isCreateReq = true))) := by
  cases s with
  | write buf off ir pr =>
    simp only [stepRunT] at h
    cases hw : S3File.Write st buf off ir pr with
    | error e => rw [hw] at h; simp at h
    | ok t =>
      obtain ⟨r, st', reqs⟩ := t
      simp only [hw] at h
      by_cases hr : r < 0
      · rw [if_pos hr] at h; simp at h
      · rw [if_neg hr] at h
        simp only [Option.some.injEq, Prod.mk.injEq] at h
        obtain ⟨h1, h2⟩ := h
        subst h1; subst h2
        refine ⟨Write_counters _ _ _ _ _ _ _ _ hw, fun hio => ?_⟩
        refine Write_uploadId _ _ _ _ _ _ _ _ hw (by omega) ?_
        intro uid huid
        subst huid
        simpa [initRespOk] using hio
  | sendPart resp =>
    simp only [stepRunT] at h
    cases hsp : SendPart st resp with
    | error e => rw [hsp] at h; simp at h
    | ok t =>
      obtain ⟨r, st', reqs⟩ := t
      simp only [hsp] at h
      by_cases hr : r = -ENOENT
      · rw [if_pos hr] at h; simp at h
      · rw [if_neg hr] at h
        simp only [Option.some.injEq, Prod.mk.injEq] at h
        obtain ⟨h1, h2⟩ := h
        subst h1; subst h2
        have hc := SendPart_cases _ _ _ _ _ hsp
        rcases hc with ⟨hre, -, -⟩ | ⟨-, hpn, hlen, hup, -, hreqs⟩
        · exact absurd hre hr
        · refine ⟨Or.inr ⟨hpn, hlen⟩, fun _ => ?_⟩
          rw [hup, hreqs]
          simp [isCreateReq, partRequest]
  | close pr c =>
    simp only [stepRunT] at h
    cases hc : S3File.Close st pr c with
    | error e => rw [hc] at h; simp at h
    | ok t =>
      obtain ⟨r, st', reqs⟩ := t
      simp only [hc] at h
      by_cases hr : r = 0
      · rw [if_pos hr] at h
        simp only [Option.some.injEq, Prod.mk.injEq] at h
        obtain ⟨h1, h2⟩ := h
        subst h1; subst h2
        obtain ⟨hcase, hup, hnocreate⟩ := Close_cases _ _ _ _ _ _ hc
        exact ⟨hcase, fun _ => by rw [hup, hnocreate]; simp⟩
      · rw [if_neg hr] at h; simp at h

/-- Along any successful run, the invariant
`partNumber = eTags.length + 1` is preserved. -/
lemma runTrace_inv (ops : List WStep) : ∀ st stF reqs,
    runTrace st ops = some (stF, reqs) →
    st.partNumber = st.eTags.length + 1 →
    stF.partNumber = stF.eTags.length + 1 := by
  induction ops with
  | nil =>
    intro st stF reqs h hi
    simp only [runTrace, Option.some.injEq, Prod.mk.injEq] at h
    rw [← h.1]; exact hi
  | cons s rest ih =>
    intro st stF reqs h hi
    rw [runTrace] at h
    cases h1 : stepRunT st s with
    | none => rw [h1] at h; simp at h
    | some p =>
      obtain ⟨st1, reqs1⟩ := p
      rw [h1] at h
      cases h2 : runTrace st1 rest with
      | none => simp only [h2] at h; simp at h
      | some q =>
        obtain ⟨st2, reqs2⟩ := q
        simp only [h2, Option.some.injEq, Prod.mk.injEq] at h
        obtain ⟨hstF, -⟩ := h
        subst hstF
        have hstep := (stepRunT_cases _ _ _ _ h1).1
        have hinv1 : st1.partNumber = st1.eTags.length + 1 := by
          rcases hstep with ⟨a, b⟩ | ⟨a, b⟩
          · rw [a, b]; exact hi
          · omega
        exact ih st1 st2 reqs2 h2 hinv1

/-- Along any successful run whose init oracles return non-empty upload
ids, the `uploadId` is non-empty iff it started non-empty or some step
issued a `createMultipartUpload` request. -/
lemma runTrace_uploadId (ops : List WStep) : ∀ st stF reqs,
    ops.all initRespOk = true →
    runTrace st ops = some (stF, reqs) →
    (stF.uploadId ≠ [] ↔ (st.uploadId ≠ [] ∨ reqs.any isCreateReq = true)) := by
  induction ops with
  | nil =>
    intro st stF reqs _ h
    simp only [runTrace, Option.some.injEq, Prod.mk.injEq] at h
    obtain ⟨h1, h2⟩ := h
    subst h1; subst h2
    simp
  | cons s rest ih =>
    intro st stF reqs hall h
    rw [List.all_cons, Bool.and_eq_true] at hall
    rw [runTrace] at h
    cases h1 : stepRunT st s with
    | none => rw [h1] at h; simp at h
    | some p =>
      obtain ⟨st1, reqs1⟩ := p
      rw [h1] at h
      cases h2 : runTrace st1 rest with
      | none => simp only [h2] at h; simp at h
      | some q =>
        obtain ⟨st2, reqs2⟩ := q
        simp only [h2, Option.some.injEq, Prod.mk.injEq] at h
        obtain ⟨hstF, hreqs⟩ := h
        subst hstF; subst hreqs
        have hstep := (stepRunT_cases _ _ _ _ h1).2 hall.1
        have hrest := ih st1 st2 reqs2 hall.2 h2
        rw [List.any_append]
        rw [hrest, hstep]
        constructor
        · rintro ((a | b) | c)
          · exact Or.inl a
          · exact Or.inr (by simp [b])
          · exact Or.inr (by simp [c])
        · rintro (a | bc)
          · exact Or.inl (Or.inl a)
          · rw [Bool.or_eq_true] at bc
            rcases bc with b | c
            · exact Or.inl (Or.inr b)
            · exact Or.inr c

/-- C3: the part-counting invariant. `partNumber` starts at 1 with `eTags`
empty; every successful `SendPart` appends exactly one ETag and increments
`partNumber` by exactly one; and after any sequence of successful `Write`
and `SendPart` operations on a fresh handle, `partNumber = eTags.length + 1`. -/
theorem partNumber_eTags_invariant :
    initS3File.partNumber = 1 ∧ initS3File.eTags = [] ∧
    (∀ (st : S3File) (resp : Option (List Char)) (r : Int) (st' : S3File)
        (reqs : List Request),
      SendPart st resp = Except.ok (r, st', reqs) → r ≠ -ENOENT →
      st'.eTags.length = st.eTags.length + 1 ∧
      st'.partNumber = st.partNumber + 1) ∧
    (∀ (ops : List WStep) (stF : S3File) (reqs : List Request),
      ops.all isWriteOrSend = true →
      runTrace initS3File ops = some (stF, reqs) →
      stF.partNumber = stF.eTags.length + 1) := by
  refine ⟨rfl, rfl, ?_, ?_⟩
  · intro st resp r st' reqs h hr
    rcases SendPart_cases _ _ _ _ _ h with ⟨hre, -, -⟩ | ⟨-, hpn, hlen, -, -, -⟩
    · exact absurd hre hr
    · exact ⟨hlen, hpn⟩
  · intro ops stF reqs _ h
    exact runTrace_inv ops initS3File stF reqs h rfl

/-- Witness for the C3 theorem at concrete inputs: flushing the 1-byte
buffer of `smallWriteSt` yields `onePartSt`, and running `c3_ops` from the
initial state reaches a state satisfying the invariant. -/
theorem partNumber_eTags_invariant_witness :
    (SendPart smallWriteSt (some etagResp) =
        Except.ok (1, onePartSt, [Request.sendMultipartPart ['a'] ['1'] ['U']]) ∧
     (1 : Int) ≠ -ENOENT ∧
     onePartSt.eTags.length = smallWriteSt.eTags.length + 1 ∧
     onePartSt.partNumber = smallWriteSt.partNumber + 1) ∧
    (c3_ops.all isWriteOrSend = true ∧
     runTrace initS3File c3_ops = some (onePartSt, c3_reqs) ∧
     onePartSt.partNumber = onePartSt.eTags.length + 1) := by
  have h1 : SendPart smallWriteSt (some etagResp) =
      Except.ok (1, onePartSt, [Request.sendMultipartPart ['a'] ['1'] ['U']]) := by rfl
  have h2 : (1 : Int) ≠ -ENOENT := by decide
  have h3 : c3_ops.all isWriteOrSend = true := by rfl
  have h4 : runTrace initS3File c3_ops = some (onePartSt, c3_reqs) := by rfl
  exact ⟨⟨h1, h2, partNumber_eTags_invariant.2.2.1 _ _ _ _ _ h1 h2⟩,
         ⟨h3, h4, partNumber_eTags_invariant.2.2.2 c3_ops onePartSt c3_reqs h3 h4⟩⟩

/-- C4 counterexample: one successful below-threshold `Write` from the
initial state leaves `uploadId` non-empty although no part flush
(`sendMultipartPart` request) was ever attempted — the claimed equivalence
is false at this state. -/
theorem uploadId_before_flush_counterexample :
    runTrace initS3File c4_ops =
      some (smallWriteSt, [Request.createMultipartUpload]) ∧
    smallWriteSt.uploadId ≠ [] ∧
    ([Request.createMultipartUpload].any isPartReq) = false ∧
    ¬ (smallWriteSt.uploadId ≠ [] ↔
        ([Request.createMultipartUpload].any isPartReq) = true) := by decide

/-- C4 amended: along any successful run (with init oracles returning
non-empty ids), `uploadId` is non-empty iff a `createMultipartUpload`
request has been issued — which happens at the start of the first `Write`,
before any threshold check, not at the first flush. -/
theorem uploadId_nonempty_iff_init_request (ops : List WStep) (stF : S3File)
    (reqs : List Request) (hok : ops.all initRespOk = true)
    (hrun : runTrace initS3File ops = some (stF, reqs)) :
    (stF.uploadId ≠ [] ↔ reqs.any isCreateReq = true) := by
  have h := runTrace_uploadId ops initS3File stF reqs hok hrun
  simpa [initS3File] using h

/-- Witness for the C4 amended theorem: after the single below-threshold
write of `c4_ops`, `uploadId` is non-empty and indeed a multipart-init
request is in the trace. -/
theorem uploadId_nonempty_iff_init_request_witness :
    c4_ops.all initRespOk = true ∧
    runTrace initS3File c4_ops =
      some (smallWriteSt, [Request.createMultipartUpload]) ∧
    (smallWriteSt.uploadId ≠ [] ↔
      [Request.createMultipartUpload].any isCreateReq = true) := by
  have h1 : c4_ops.all initRespOk = true := by decide
  have h2 : runTrace initS3File c4_ops =
      some (smallWriteSt, [Request.createMultipartUpload]) := by rfl
  exact ⟨h1, h2,
    uploadId_nonempty_iff_init_request c4_ops smallWriteSt
      [Request.createMultipartUpload] h1 h2⟩

/-- C6 counterexample: after a write and a first `Close` that drained and
finalized, a second `Close` issues the completion request again — the trace
of the full run holds two completion requests, and the second `Close` alone
returns with a non-empty request list. -/
theorem close_twice_counterexample :
    runTrace initS3File c6_ops = some (onePartSt, c6_trace) ∧
    (c6_trace.filter isCompleteReq).length = 2 ∧
    S3File.Close onePartSt none true =
      Except.ok (0, onePartSt, [completeRequest onePartSt]) ∧
    completeRequest onePartSt =
      Request.completeMultipartUpload [abcTag] 2 ['U'] := by
  exact ⟨by rfl, by rfl, by rfl, by rfl⟩

/-- C6 amended: a second `Close` on a drained, finalized handle
(`write_buffer` empty, `partNumber > 1`) issues no part upload and changes
no state, but re-issues the completion request; it returns success exactly
when that repeated completion request succeeds. -/
theorem second_close_reissues_completion (st : S3File)
    (pr : Option (List Char)) (b : Bool)
    (h1 : st.write_buffer = []) (h2 : st.partNumber > 1) :
    S3File.Close st pr b =
      Except.ok ((if b then 0 else -ENOENT), st, [completeRequest st]) := by
  rw [S3File.Close, h1]
  rw [if_neg (by simp)]
  rw [closeFinalize, if_pos h2]
  cases b <;> simp

/-- Witness for the C6 amended theorem at the drained, finalized state
`onePartSt`. -/
theorem second_close_reissues_completion_witness :
    onePartSt.write_buffer = [] ∧ onePartSt.partNumber > 1 ∧
    S3File.Close onePartSt none true =
      Except.ok ((if true then (0 : Int) else -ENOENT), onePartSt,
        [completeRequest onePartSt]) :=
  ⟨rfl, by decide, second_close_reissues_completion onePartSt none true rfl (by decide)⟩

/-- Behaviour of `Write` from a handle with empty `uploadId`: successful init, payload
appended, threshold not exceeded. -/
lemma write_init_noflush (st stT : S3File) (buf : List Char) (off : Int)
    (uid : List Char) (pr : Option (List Char))
    (h1 : st.uploadId = [])
    (h2 : st.write_buffer.length + buf.length ≤ 100000000)
    (hT : stT =
      { st with uploadId := uid, write_buffer := st.write_buffer ++ buf }) :
    S3File.Write st buf off (some uid) pr =
      Except.ok (Int.ofNat buf.length, stT,
        [Request.createMultipartUpload]) := by
  rw [S3File.Write.eq_def, if_pos h1]
  show writeBody { st with uploadId := uid } buf
    [Request.createMultipartUpload] pr = _
  rw [writeBody, if_neg (by simp)]
  have hc : ¬ (({ st with uploadId := uid } : S3File).write_buffer ++ buf).length > 100000000 := by
    simp only [List.length_append]
    omega
  rw [if_neg hc, hT]

/-- Behaviour of `Write` with non-empty `uploadId`, threshold not exceeded: plain
append. -/
lemma write_noflush (st stT : S3File) (buf : List Char) (off : Int)
    (ir pr : Option (List Char))
    (h1 : ¬ st.uploadId = [])
    (h2 : st.write_buffer.length + buf.length ≤ 100000000)
    (hT : stT = { st with write_buffer := st.write_buffer ++ buf }) :
    S3File.Write st buf off ir pr =
      Except.ok (Int.ofNat buf.length, stT, []) := by
  rw [S3File.Write.eq_def, if_neg h1]
  rw [writeBody, if_neg (by simp)]
  have hc : ¬ (st.write_buffer ++ buf).length > 100000000 := by
    simp only [List.length_append]
    omega
  rw [if_neg hc, hT]

/-- Behaviour of `Write` with non-empty `uploadId`, threshold exceeded,
part upload succeeding: flush, clear, bump. -/
lemma write_flush_ok (st stT : S3File) (buf : List Char) (off : Int)
    (ir : Option (List Char)) (resp tag : List Char)
    (h1 : ¬ st.uploadId = [])
    (h2 : st.write_buffer.length + buf.length > 100000000)
    (h3 : extractETag resp = Except.ok tag)
    (hT : stT = flushedState
      { st with write_buffer := st.write_buffer ++ buf } tag) :
    S3File.Write st buf off ir (some resp) =
      Except.ok (Int.ofNat buf.length, stT,
        [partRequest { st with write_buffer := st.write_buffer ++ buf }]) := by
  rw [S3File.Write.eq_def, if_neg h1]
  rw [writeBody, if_neg (by simp)]
  have hc : (st.write_buffer ++ buf).length > 100000000 := by
    simp only [List.length_append]
    omega
  rw [if_pos hc]
  simp only [SendPart, h3]
  rw [if_neg (intOfNat_ne_negENOENT _)]
  rw [hT, flushedState]
  simp

/-- Behaviour of `Write` with non-empty `uploadId`, threshold exceeded,
part upload failing: returns `-ENOENT` with the payload still buffered. -/
lemma write_flush_fail (st stT : S3File) (buf : List Char) (off : Int)
    (ir : Option (List Char))
    (h1 : ¬ st.uploadId = [])
    (h2 : st.write_buffer.length + buf.length > 100000000)
    (hT : stT = { st with write_buffer := st.write_buffer ++ buf }) :
    S3File.Write st buf off ir none =
      Except.ok (-ENOENT, stT, [partRequest stT]) := by
  rw [S3File.Write.eq_def, if_neg h1]
  rw [writeBody, if_neg (by simp)]
  have hc : (st.write_buffer ++ buf).length > 100000000 := by
    simp only [List.length_append]
    omega
  rw [if_pos hc]
  simp only [SendPart]
  rw [hT]
  simp

/-- Behaviour of `Close` with a non-empty buffer: the drain flush succeeds and the
upload is finalized (completion succeeding). -/
lemma close_drain_finalize (st stT : S3File) (resp tag : List Char)
    (h0 : st.write_buffer ≠ []) (hpn : 1 ≤ st.partNumber)
    (h3 : extractETag resp = Except.ok tag)
    (hT : stT = flushedState st tag) :
    S3File.Close st (some resp) true =
      Except.ok (0, stT, [partRequest st, completeRequest stT]) := by
  rw [S3File.Close, if_pos (List.length_pos.mpr h0)]
  simp only [SendPart, h3]
  rw [if_neg (intOfNat_ne_negENOENT _)]
  rw [closeFinalize]
  rw [if_pos (by simp; omega)]
  rw [hT, flushedState]
  simp

/-- A successful `Write` (it returns the accepted size) makes a successful
step. -/
lemma stepRunT_write_ok (st st' : S3File) (buf : List Char) (off : Int)
    (ir pr : Option (List Char)) (reqs : List Request)
    (h : S3File.Write st buf off ir pr =
      Except.ok (Int.ofNat buf.length, st', reqs)) :
    stepRunT st (WStep.write buf off ir pr) = some (st', reqs) := by
  simp only [stepRunT, h]
  rw [if_neg (intOfNat_not_lt_zero _)]

/-- A successful `Close` (it returns 0) makes a successful step. -/
lemma stepRunT_close_ok (st st' : S3File) (pr : Option (List Char))
    (reqs : List Request)
    (h : S3File.Close st pr true = Except.ok (0, st', reqs)) :
    stepRunT st (WStep.close pr true) = some (st', reqs) := by
  simp only [stepRunT, h]
  simp

/-- Unfolding one successful step of `runTrace`. -/
lemma runTrace_cons_eq (st st1 stF : S3File) (s : WStep) (rest : List WStep)
    (reqs1 reqsF : List Request)
    (h1 : stepRunT st s = some (st1, reqs1))
    (h2 : runTrace st1 rest = some (stF, reqsF)) :
    runTrace st (s :: rest) = some (stF, reqs1 ++ reqsF) := by
  rw [runTrace]
  simp only [h1, h2]

/-- The length of the 60 MB payload. -/
lemma sixtyMB_length : sixtyMB.length = 60000000 := by
  simp only [sixtyMB, List.length_replicate]

/-- The initial write buffer is empty. -/
lemma initS3File_wb : initS3File.write_buffer = [] := rfl

/-- The buffer of `c7_st1` is the 60 MB payload. -/
lemma c7_st1_wb : c7_st1.write_buffer = sixtyMB := rfl

/-- The buffer of `c7_st2` is empty. -/
lemma c7_st2_wb : c7_st2.write_buffer = [] := rfl

/-- C7 counterexample: in the three-60,000,000-byte-writes scenario, `Close`
finalizes with exactly two accumulated ETags but passes `partNumber = 3` —
not 2 — as the part-count argument of the completion request. -/
theorem close_part_count_counterexample :
    (runTrace initS3File c7_ops).map
      (fun p => (p.1.eTags.length, p.1.partNumber, p.2.filter isCompleteReq)) =
      some (2, 3, [Request.completeMultipartUpload [abcTag, abcTag] 3 ['U']]) ∧
    (3 : Nat) ≠ [abcTag, abcTag].length := by
  have h1 := write_init_noflush initS3File c7_st1 sixtyMB 0 ['U'] none rfl
    (by rw [initS3File_wb, List.length_nil, sixtyMB_length]; omega) rfl
  have s1 := stepRunT_write_ok _ _ _ _ _ _ _ h1
  have h2 := write_flush_ok c7_st1 c7_st2 sixtyMB 0 none etagResp abcTag
    (by decide)
    (by rw [c7_st1_wb, sixtyMB_length]; omega)
    rfl rfl
  have s2 := stepRunT_write_ok _ _ _ _ _ _ _ h2
  have h3 := write_noflush c7_st2 c7_st3 sixtyMB 0 none none
    (by decide)
    (by rw [c7_st2_wb, List.length_nil, sixtyMB_length]; omega)
    rfl
  have s3 := stepRunT_write_ok _ _ _ _ _ _ _ h3
  have h4 := close_drain_finalize c7_st3 c7_st4 etagResp abcTag
    (by decide) (by decide) rfl rfl
  have s4 := stepRunT_close_ok _ _ _ _ h4
  have hrun : runTrace initS3File c7_ops =
      some (c7_st4, [Request.createMultipartUpload] ++
        ([c7_part1Req] ++ ([] ++ ([c7_part2Req, completeRequest c7_st4] ++ [])))) :=
    runTrace_cons_eq _ _ _ _ _ _ _ s1
      (runTrace_cons_eq _ _ _ _ _ _ _ s2
        (runTrace_cons_eq _ _ _ _ _ _ _ s3
          (runTrace_cons_eq _ _ _ _ _ _ _ s4 rfl)))
  rw [hrun]
  exact ⟨rfl, by decide⟩

/-- C7 amended: whenever a `Close` from a reachable state issues a
completion request, that request carries the accumulated `eTags` and, as
the part-count argument, the `partNumber` counter — which equals the number
of successfully uploaded parts PLUS ONE, not the ETag count. -/
theorem close_part_count_is_eTags_succ (ops : List WStep) (stF : S3File)
    (trace : List Request) (pr : Option (List Char)) (b : Bool) (r : Int)
    (st' : S3File) (reqs : List Request) (e : List (List Char)) (n : Nat)
    (u : List Char)
    (hrun : runTrace initS3File ops = some (stF, trace))
    (hclose : S3File.Close stF pr b = Except.ok (r, st', reqs))
    (hmem : Request.completeMultipartUpload e n u ∈ reqs) :
    e = st'.eTags ∧ n = st'.partNumber ∧ n = e.length + 1 := by
  have hinv : stF.partNumber = stF.eTags.length + 1 :=
    runTrace_inv ops initS3File stF trace hrun rfl
  rw [S3File.Close] at hclose
  split at hclose
  · cases hsp : SendPart stF pr with
    | error e2 => rw [hsp] at hclose; simp at hclose
    | ok t =>
      obtain ⟨r2, st1, reqs1⟩ := t
      simp only [hsp] at hclose
      have hc := SendPart_cases _ _ _ _ _ hsp
      by_cases hr2 : r2 = -ENOENT
      · rw [if_pos hr2] at hclose
        simp only [Except.ok.injEq, Prod.mk.injEq] at hclose
        obtain ⟨-, -, h3⟩ := hclose
        rcases hc with ⟨-, -, hreqs⟩ | ⟨hr, -, -, -, -, -⟩
        · rw [← h3, hreqs] at hmem
          simp [partRequest] at hmem
        · exact absurd (hr2 ▸ hr.symm) (intOfNat_ne_negENOENT _)
      · rw [if_neg hr2] at hclose
        obtain ⟨hst', hreqs'⟩ := closeFinalize_cases _ _ _ _ _ _ hclose
        rcases hc with ⟨hr, -, -⟩ | ⟨-, hpn, hlen, -, -, hreqs⟩
        · exact absurd hr hr2
        · have hinv1 : st1.partNumber = st1.eTags.length + 1 := by omega
          subst hst'
          rcases hreqs' with h' | h'
          · rw [h', hreqs] at hmem
            simp [partRequest] at hmem
          · rw [h', hreqs] at hmem
            simp only [List.mem_append, List.mem_singleton,
              List.mem_cons, List.not_mem_nil, or_false] at hmem
            rcases hmem with hmem | hmem
            · simp [partRequest] at hmem
            · rw [completeRequest] at hmem
              obtain ⟨he, hn, -⟩ := Request.completeMultipartUpload.injEq _ _ _ _ _ _ ▸ hmem
              · exact ⟨he, hn, by rw [he, hn]; exact hinv1⟩
  · obtain ⟨hst', hreqs'⟩ := closeFinalize_cases _ _ _ _ _ _ hclose
    subst hst'
    rcases hreqs' with h' | h'
    · rw [h'] at hmem; simp at hmem
    · rw [h'] at hmem
      simp only [List.nil_append, List.mem_singleton] at hmem
      rw [completeRequest] at hmem
      obtain ⟨he, hn, -⟩ := Request.completeMultipartUpload.injEq _ _ _ _ _ _ ▸ hmem
      exact ⟨he, hn, by rw [he, hn]; exact hinv⟩

/-- Witness for the C7 amended theorem: a 1-byte write, then `Close`; the
completion request carries one ETag and part-count 2 = 1 + 1. -/
theorem close_part_count_is_eTags_succ_witness :
    runTrace initS3File c4_ops =
      some (smallWriteSt, [Request.createMultipartUpload]) ∧
    S3File.Close smallWriteSt (some etagResp) true =
      Except.ok (0, onePartSt,
        [partRequest smallWriteSt, completeRequest onePartSt]) ∧
    Request.completeMultipartUpload [abcTag] 2 ['U'] ∈
      [partRequest smallWriteSt, completeRequest onePartSt] ∧
    ([abcTag] = onePartSt.eTags ∧ 2 = onePartSt.partNumber ∧
     2 = [abcTag].length + 1) := by
  have h1 : runTrace initS3File c4_ops =
      some (smallWriteSt, [Request.createMultipartUpload]) := by rfl
  have h2 : S3File.Close smallWriteSt (some etagResp) true =
      Except.ok (0, onePartSt,
        [partRequest smallWriteSt, completeRequest onePartSt]) := by rfl
  have h3 : Request.completeMultipartUpload [abcTag] 2 ['U'] ∈
      [partRequest smallWriteSt, completeRequest onePartSt] := by decide
  exact ⟨h1, h2, h3,
    close_part_count_is_eTags_succ c4_ops smallWriteSt
      [Request.createMultipartUpload] (some etagResp) true 0 onePartSt
      [partRequest smallWriteSt, completeRequest onePartSt]
      [abcTag] 2 ['U'] h1 h2 h3⟩

/-- C8: the flush threshold is a strict greater-than on 100,000,000: a
`Write` that brings the buffer to exactly 100,000,000 bytes issues no part
upload and just appends; one that brings it to 100,000,001 or more
triggers a part flush (a `sendMultipartPart` request). -/
theorem flush_threshold_boundary :
    (∀ (st : S3File) (buf : List Char) (off : Int)
        (ir pr : Option (List Char)), st.uploadId ≠ [] →
      st.write_buffer.length + buf.length = 100000000 →
      S3File.Write st buf off ir pr =
        Except.ok (Int.ofNat buf.length,
          { st with write_buffer := st.write_buffer ++ buf }, [])) ∧
    (∀ (st : S3File) (buf : List Char) (off : Int)
        (ir : Option (List Char)), st.uploadId ≠ [] →
      100000001 ≤ st.write_buffer.length + buf.length →
      S3File.Write st buf off ir none =
        Except.ok (-ENOENT,
          { st with write_buffer := st.write_buffer ++ buf },
          [partRequest { st with write_buffer := st.write_buffer ++ buf }])) := by
  constructor
  · intro st buf off ir pr h1 h2
    exact write_noflush st _ buf off ir pr h1 (by omega) rfl
  · intro st buf off ir h1 h2
    exact write_flush_fail st _ buf off ir h1 (by omega) rfl

/-- The buffer of `c8_st99` has 99,999,999 bytes. -/
lemma c8_st99_wb_length : c8_st99.write_buffer.length = 99999999 := by
  have h : c8_st99.write_buffer = List.replicate 99999999 'a' := rfl
  rw [h, List.length_replicate]

/-- The buffer of `c8_st100` has 100,000,000 bytes. -/
lemma c8_st100_wb_length : c8_st100.write_buffer.length = 100000000 := by
  have h : c8_st100.write_buffer = List.replicate 100000000 'a' := rfl
  rw [h, List.length_replicate]

/-- Witness for the C8 theorem: appending one byte to a 99,999,999-byte
buffer (reaching exactly the threshold) does not flush; appending one byte
to a 100,000,000-byte buffer does. -/
theorem flush_threshold_boundary_witness :
    (c8_st99.uploadId ≠ [] ∧
     c8_st99.write_buffer.length + ['b'].length = 100000000 ∧
     S3File.Write c8_st99 ['b'] 0 none none =
       Except.ok (Int.ofNat (['b'].length),
         { c8_st99 with write_buffer := c8_st99.write_buffer ++ ['b'] }, [])) ∧
    (c8_st100.uploadId ≠ [] ∧
     100000001 ≤ c8_st100.write_buffer.length + ['b'].length ∧
     S3File.Write c8_st100 ['b'] 0 none none =
       Except.ok (-ENOENT,
         { c8_st100 with write_buffer := c8_st100.write_buffer ++ ['b'] },
         [partRequest
           { c8_st100 with write_buffer := c8_st100.write_buffer ++ ['b'] }])) := by
  have e99 : c8_st99.uploadId ≠ [] := by decide
  have l99 : c8_st99.write_buffer.length + ['b'].length = 100000000 := by
    rw [c8_st99_wb_length, List.length_singleton]
  have e100 : c8_st100.uploadId ≠ [] := by decide
  have l100 : (100000001 : Nat) ≤ c8_st100.write_buffer.length + ['b'].length := by
    rw [c8_st100_wb_length, List.length_singleton]
  exact ⟨⟨e99, l99, flush_threshold_boundary.1 c8_st99 ['b'] 0 none none e99 l99⟩,
         ⟨e100, l100, flush_threshold_boundary.2 c8_st100 ['b'] 0 none e100 l100⟩⟩

/-- C9 amended: `Open` issues the metadata probe exactly when the flag word
is zero (`!Oflag`), not merely when no creation/write flag is present: with
`Oflag = 0` the probe is issued and a probe failure yields `-ENOENT`; with
any non-zero `Oflag` — even one containing no creation/write flag — no
probe is issued and `Open` succeeds. -/
theorem open_probe_iff_flags_zero (st : S3File) (path : List Char)
    (Oflag mode : Nat) (o : OpenOracle) (ai : S3AccessInfo)
    (h1 : o.parseRv = 0) (h2 : o.accessInfo = some ai)
    (h3 : ai.s3BucketName ≠ []) :
    (Oflag = 0 →
      S3File.Open st path Oflag mode o =
        ((if o.headOk then 0 else -ENOENT),
         openedState st ai o.object, [Request.head])) ∧
    (Oflag ≠ 0 →
      S3File.Open st path Oflag mode o =
        (0, openedState st ai o.object, [])) := by
  rw [S3File.Open.eq_def]
  rw [if_neg (by simp [h1])]
  simp only [h2]
  rw [if_neg h3]
  constructor
  · intro h0
    rw [if_pos h0]
    cases hb : o.headOk <;> simp [openedState]
  · intro h0
    rw [if_neg h0]
    rfl

/-- Witness for the C9 amended theorem at concrete inputs: a zero flag word
probes (and fails with `-ENOENT` under `c9o`); the non-zero flag word
`O_NONBLOCK` does not probe. -/
theorem open_probe_iff_flags_zero_witness :
    (c9o.parseRv = 0 ∧ c9o.accessInfo = some c9ai ∧
     c9ai.s3BucketName ≠ [] ∧ (0 : Nat) = 0 ∧
     S3File.Open initS3File ['p'] 0 0 c9o =
       ((if c9o.headOk then 0 else -ENOENT),
        openedState initS3File c9ai c9o.object, [Request.head])) ∧
    (O_NONBLOCK ≠ 0 ∧
     S3File.Open initS3File ['p'] O_NONBLOCK 0 c9o =
       (0, openedState initS3File c9ai c9o.object, [])) := by
  have h1 : c9o.parseRv = 0 := rfl
  have h2 : c9o.accessInfo = some c9ai := rfl
  have h3 : c9ai.s3BucketName ≠ [] := by decide
  have h4 : O_NONBLOCK ≠ 0 := by decide
  exact ⟨⟨h1, h2, h3, rfl,
      (open_probe_iff_flags_zero initS3File ['p'] 0 0 c9o c9ai h1 h2 h3).1 rfl⟩,
    ⟨h4,
      (open_probe_iff_flags_zero initS3File ['p'] O_NONBLOCK 0 c9o c9ai
        h1 h2 h3).2 h4⟩⟩

/-- C9 counterexample: `Oflag = O_NONBLOCK` contains no creation or write
flag, yet `Open` issues no metadata probe and returns 0 — although the
probe, had it been issued, would have failed (`c9o.headOk = false`), so the
claimed `-ENOENT` is not returned. -/
theorem open_read_flags_no_probe_counterexample :
    O_NONBLOCK &&& createWriteMask = 0 ∧
    c9o.headOk = false ∧
    S3File.Open initS3File ['p'] O_NONBLOCK 0 c9o =
      (0, openedState initS3File c9ai ['o'], []) ∧
    (0 : Int) ≠ -ENOENT := by decide
